import Mathlib

/-!
Verification of the stress-testing / latency-benchmarking harness of the
kdb-python-hft-pipeline repository (src/tests/stress_test_generator.py and
src/tests/latency_monitor.py), via a shallow embedding into Lean 4.

Modelling conventions:
* Python floats are modelled as exact rationals (ℚ); every wall-clock reading
  obtained from time.time() becomes an explicit parameter of type ℚ.
* Python round(x, 2) is modelled by round-half-even at two decimal places.
* Python int(x) (truncation toward zero) is modelled by pyTrunc.
* The random draws consumed by MarketDataGenerator.generate_bar are passed
  explicitly in a Draws record; random.uniform(a, b) is a + (b - a) * u with
  u ranging over [0, 1], matching CPython's implementation.
* The ingestion sink (the remote conn(...) call) is modelled as an oracle
  giving the outcome of each send attempt: success with a measured latency,
  or a raised fault.
* In get_stats, the Python dict field latency_ms is the empty dict exactly
  when no latencies were recorded; the consumer print_results treats the
  empty dict as the absent/null marker. We model it as an Option.
-/

namespace HftPipeline

/-- Python truthiness of an optional float value: None and 0.0 are falsy. -/
def pyTruthy : Option ℚ → Bool
  | none => false
  | some q => q != 0

/-- Python int(x): truncation toward zero. -/
def pyTrunc (q : ℚ) : ℤ :=
  if 0 ≤ q then ⌊q⌋ else ⌈q⌉

/-- Round a rational to the nearest integer, ties to the even integer
(Python's round / IEEE round-half-even). -/
def roundHalfEven (q : ℚ) : ℤ :=
  if q - ⌊q⌋ < 1/2 then ⌊q⌋
  else if 1/2 < q - ⌊q⌋ then ⌊q⌋ + 1
  else if ⌊q⌋ % 2 = 0 then ⌊q⌋ else ⌊q⌋ + 1

/-- Python round(x, 2): round-half-even at two decimal places. -/
def round2 (q : ℚ) : ℚ :=
  (roundHalfEven (q * 100) : ℚ) / 100

/-- Python min() over a nonempty list (0 as junk value on []). -/
def pyMin : List ℚ → ℚ
  | [] => 0
  | x :: xs => xs.foldl min x

/-- Python max() over a nonempty list (0 as junk value on []). -/
def pyMax : List ℚ → ℚ
  | [] => 0
  | x :: xs => xs.foldl max x

/-- The sorted(latencies) list built by both statistics routines:
ascending insertion sort. -/
def sortedLat (l : List ℚ) : List ℚ :=
  List.insertionSort (· ≤ ·) l

/-- statistics.median: middle element of the sorted list for odd length,
average of the two middle elements for even length. -/
def pyMedian (l : List ℚ) : ℚ :=
  let s := sortedLat l
  let n := s.length
  if n % 2 = 1 then s.getD (n / 2) 0
  else (s.getD (n / 2 - 1) 0 + s.getD (n / 2) 0) / 2

/-- State of StressTestMetrics (stress_test_generator.py, lines 22-41):
counters, the latency sample list, and the optional start instant.
The threading.Lock only serializes access and has no sequential content. -/
structure StressTestMetrics where
  messages_sent : Nat
  errors : Nat
  latencies : List ℚ
  start_time : Option ℚ
  deriving DecidableEq

/-- The freshly constructed StressTestMetrics() state. -/
def initMetrics : StressTestMetrics :=
  { messages_sent := 0, errors := 0, latencies := [], start_time := none }

/-- StressTestMetrics.record_message (lines 32-36).  The source guard is
the Python truthiness test `if latency_ms:`, so None and 0.0 both skip the
append; the counter is always incremented.  Total function: never fails. -/
def record_message (m : StressTestMetrics) (latency_ms : Option ℚ) : StressTestMetrics :=
  { m with
    messages_sent := m.messages_sent + 1
    latencies :=
      if pyTruthy latency_ms then m.latencies ++ [latency_ms.getD 0]
      else m.latencies }

/-- StressTestMetrics.record_error (lines 38-40). -/
def record_error (m : StressTestMetrics) : StressTestMetrics :=
  { m with errors := m.errors + 1 }

/-- The latency_ms sub-dict of get_stats (lines 47-57), present only when
the latency list is nonempty. -/
structure LatencyStats where
  min : ℚ
  max : ℚ
  avg : ℚ
  p50 : ℚ
  p95 : ℚ
  p99 : ℚ
  deriving DecidableEq

/-- The dict returned by StressTestMetrics.get_stats (lines 59-66).
latency_ms is none exactly when the source builds the empty dict {}
(which print_results, line 349, treats as the absent marker). -/
structure Stats where
  messages_sent : Nat
  errors : Nat
  duration_seconds : ℚ
  throughput_msg_per_sec : ℚ
  error_rate : ℚ
  latency_ms : Option LatencyStats
  deriving DecidableEq

/-- The latency statistics computed by get_stats on a nonempty latency list
(lines 48-57): indices into the ascending-sorted list are len//2,
int(len*0.95) and int(len*0.99), taken exactly as in the source. -/
def latencyStatsOf (l : List ℚ) : LatencyStats :=
  let s := sortedLat l
  let n := s.length
  { min := pyMin l
    max := pyMax l
    avg := l.sum / (l.length : ℚ)
    p50 := s.getD (n / 2) 0
    p95 := s.getD (n * 95 / 100) 0
    p99 := s.getD (n * 99 / 100) 0 }

/-- StressTestMetrics.get_stats (lines 42-66).  now is the time.time()
reading taken during the call.  The source guard on line 44 is the Python
truthiness test `if self.start_time`, so duration is 0 both when no start
time was set (None) and when it is the falsy epoch reading 0.0. -/
def get_stats (m : StressTestMetrics) (now : ℚ) : Stats :=
  let duration : ℚ := if pyTruthy m.start_time then now - m.start_time.getD 0 else 0
  { messages_sent := m.messages_sent
    errors := m.errors
    duration_seconds := duration
    throughput_msg_per_sec :=
      if 0 < duration then (m.messages_sent : ℚ) / duration else 0
    error_rate :=
      if 0 < m.messages_sent then (m.errors : ℚ) / (m.messages_sent : ℚ) else 0
    latency_ms :=
      if m.latencies = [] then none else some (latencyStatsOf m.latencies) }

/-- The stats dict built by LatencyMonitor._analyze_latencies
(latency_monitor.py, lines 320-331).  The source's stdev field is the
square root of stdev_sq below (statistics.stdev, sample standard
deviation), irrational in general; we carry its square, which determines
it.  No claim refers to this field. -/
structure AnalyzeStats where
  count : Nat
  min : ℚ
  max : ℚ
  mean : ℚ
  median : ℚ
  p95 : ℚ
  p99 : ℚ
  stdev_sq : ℚ
  deriving DecidableEq

/-- Sample variance (the square of statistics.stdev) of a list. -/
def sampleVariance (l : List ℚ) : ℚ :=
  let mean := l.sum / (l.length : ℚ)
  ((l.map (fun x => (x - mean) ^ 2)).sum) / ((l.length : ℚ) - 1)

/-- LatencyMonitor._analyze_latencies (latency_monitor.py, lines 314-331):
returns None on an empty latency list, otherwise the stats record built
from the sorted list with indices int(len*0.95) and int(len*0.99). -/
def analyze_latencies (l : List ℚ) : Option AnalyzeStats :=
  if l = [] then none
  else
    some
      { count := l.length
        min := pyMin l
        max := pyMax l
        mean := l.sum / (l.length : ℚ)
        median := pyMedian l
        p95 := (sortedLat l).getD (l.length * 95 / 100) 0
        p99 := (sortedLat l).getD (l.length * 99 / 100) 0
        stdev_sq := if 1 < l.length then sampleVariance l else 0 }

/-- One OHLCV bar as returned by MarketDataGenerator.generate_bar
(stress_test_generator.py, lines 94-102).  The Python dict key `open` is a
Lean keyword, so the field carries the source's local variable name
open_price. -/
structure Bar where
  time : ℤ
  symbol : String
  open_price : ℚ
  high : ℚ
  low : ℚ
  close : ℚ
  volume : ℤ
  deriving DecidableEq

/-- State of MarketDataGenerator (lines 69-75): the symbol list, the
per-symbol last close price, and the per-symbol baseline volume. -/
structure MarketDataGenerator where
  symbols : List String
  prices : String → ℚ
  volumes : String → ℤ

/-- The random draws and the clock reading consumed by one generate_bar
call: change_pct is the random.gauss(0, 0.002) draw; high_off and low_off
are the two random.gauss(0, 0.001) draws (before abs); open_u is the
uniform draw with random.uniform(low, high) = low + (high - low) * open_u,
open_u in [0, 1]; vol_u is the random.uniform(0.5, 1.5) volume factor;
now_ms is int(time.time() * 1000). -/
structure Draws where
  change_pct : ℚ
  high_off : ℚ
  low_off : ℚ
  open_u : ℚ
  vol_u : ℚ
  now_ms : ℤ
  deriving DecidableEq

/-- MarketDataGenerator.generate_bar (lines 77-102): random-walk close,
high/low from half-normal offsets, open uniform in [low, high], volume
scaled baseline; stores the un-rounded close back into prices[symbol] and
returns the bar with open/high/low/close rounded to 2 decimals. -/
def generate_bar (g : MarketDataGenerator) (symbol : String) (d : Draws) :
    Bar × MarketDataGenerator :=
  let close := g.prices symbol * (1 + d.change_pct)
  let high := close * (1 + |d.high_off|)
  let low := close * (1 - |d.low_off|)
  let open_price := low + (high - low) * d.open_u
  let volume := pyTrunc ((g.volumes symbol : ℚ) * d.vol_u)
  let g' : MarketDataGenerator :=
    { g with prices := fun s => if s = symbol then close else g.prices s }
  (⟨d.now_ms, symbol, round2 open_price, round2 high, round2 low, round2 close, volume⟩, g')

/-- Outcome of one ingestion-sink call (the conn('.ingestRealTimeData', ...)
remote call): acknowledge after a measured latency, or raise a fault. -/
inductive SendOutcome where
  | ok (latency_ms : ℚ)
  | fault
  deriving DecidableEq

/-- Boolean test for a fault outcome. -/
def isFault : SendOutcome → Bool
  | SendOutcome.ok _ => false
  | SendOutcome.fault => true

/-- Boolean test for a success outcome. -/
def isOk : SendOutcome → Bool
  | SendOutcome.ok _ => true
  | SendOutcome.fault => false

/-- StressTester.send_bar (lines 125-143): a successful sink call records
the measured latency via record_message and returns True; a raised fault
is caught locally, recorded via record_error, and False is returned. -/
def send_bar (m : StressTestMetrics) (o : SendOutcome) : Bool × StressTestMetrics :=
  match o with
  | SendOutcome.ok lat => (true, record_message m (some lat))
  | SendOutcome.fault => (false, record_error m)

/-- A sequential run of send attempts through send_bar, as performed by the
loops of the burst/sustained/spike/memory phases: each attempt's outcome is
absorbed into the metrics and the loop continues. -/
def runSends (m : StressTestMetrics) (outs : List SendOutcome) : StressTestMetrics :=
  outs.foldl (fun acc o => (send_bar acc o).2) m

/-- The inner loop of StressTester.burst_test (lines 161-166): one pass
over all symbols, generating a bar for each and sending it through
send_bar.  The state threads the generator, the metrics, and the index of
the next send attempt (which selects the sink outcome and the draws). -/
def burst_inner (symbols : List String) (sink : Nat → SendOutcome) (draws : Nat → Draws)
    (st : MarketDataGenerator × StressTestMetrics × Nat) :
    MarketDataGenerator × StressTestMetrics × Nat :=
  symbols.foldl
    (fun st symbol =>
      let g' := (generate_bar st.1 symbol (draws st.2.2)).2
      (g', (send_bar st.2.1 (sink st.2.2)).2, st.2.2 + 1))
    st

/-- StressTester.burst_test (lines 145-173): fresh generator and metrics
with start_time set, then messages_per_symbol passes of the inner
per-symbol loop.  Logging and optional sleeps have no metric effect. -/
def burst_test (g0 : MarketDataGenerator) (symbols : List String)
    (messages_per_symbol : Nat) (sink : Nat → SendOutcome) (draws : Nat → Draws)
    (t0 : ℚ) : MarketDataGenerator × StressTestMetrics × Nat :=
  (List.range messages_per_symbol).foldl
    (fun st _ => burst_inner symbols sink draws st)
    (g0, { initMetrics with start_time := some t0 }, 0)

/-- The worker closure of StressTester.concurrent_connections_test
(lines 256-276).  The try block wraps the whole send loop: each successful
send records its latency and the loop proceeds; the first raised fault
transfers control to the except handler, which performs exactly one
record_error, and the worker function returns, abandoning its remaining
sends.  Fuel k counts the remaining sends; i indexes the attempt. -/
def workerLoop (symPick : Nat → String) (draws : Nat → Draws) (sink : Nat → SendOutcome) :
    Nat → Nat → MarketDataGenerator → StressTestMetrics → StressTestMetrics
  | 0, _, _, m => m
  | k + 1, i, gen, m =>
    let gen' := (generate_bar gen (symPick i) (draws i)).2
    match sink i with
    | SendOutcome.ok lat =>
        workerLoop symPick draws sink k (i + 1) gen' (record_message m (some lat))
    | SendOutcome.fault => record_error m

/-- Modelled from the claim: the per-message fault-isolated worker the
specification describes, in which a fault increments the error counter and
the worker continues with its next scheduled send.  Used only to compare
against the source's workerLoop. -/
def workerLoopIsolated (symPick : Nat → String) (draws : Nat → Draws)
    (sink : Nat → SendOutcome) :
    Nat → Nat → MarketDataGenerator → StressTestMetrics → StressTestMetrics
  | 0, _, _, m => m
  | k + 1, i, gen, m =>
    let gen' := (generate_bar gen (symPick i) (draws i)).2
    match sink i with
    | SendOutcome.ok lat =>
        workerLoopIsolated symPick draws sink k (i + 1) gen' (record_message m (some lat))
    | SendOutcome.fault =>
        workerLoopIsolated symPick draws sink k (i + 1) gen' (record_error m)

/-- Outcome of running one whole phase inside run_all_tests: its stats
dict, or an exception escaping the phase. -/
inductive PhaseOutcome where
  | ok (stats : Stats)
  | exn
  deriving DecidableEq

/-- Sequential execution of the phase list by run_all_tests: an exception
raised by any phase propagates (there is no try/except around the phases in
lines 361-412), so no further phase runs and no results document is
produced; if all phases return, the collected stats are serialized. -/
def runPhases : List PhaseOutcome → Option (List Stats)
  | [] => some []
  | PhaseOutcome.ok s :: rest => (runPhases rest).map (fun l => s :: l)
  | PhaseOutcome.exn :: _ => none

/-- StressTester.run_all_tests (lines 361-412): early return (no document)
when connect() fails; otherwise the phases run in sequence and the results
document is written only if every phase returns normally. -/
def run_all_tests (connect_ok : Bool) (phases : List PhaseOutcome) : Option (List Stats) :=
  if connect_ok then runPhases phases else none

/-- Modelled from the spec: the claimed suite behavior in which the entry
point catches each phase-level exception, records a null result for that
phase, proceeds with the remaining phases, and always writes the
consolidated document.  Used only to compare against run_all_tests. -/
def run_all_tests_claimed (connect_ok : Bool) (phases : List PhaseOutcome) :
    Option (List (Option Stats)) :=
  if connect_ok then
    some (phases.map fun p =>
      match p with
      | PhaseOutcome.ok s => some s
      | PhaseOutcome.exn => none)
  else none

/-! Helper lemmas. -/

/-- roundHalfEven always lands on the floor or the floor plus one. -/
lemma roundHalfEven_bounds (q : ℚ) : ⌊q⌋ ≤ roundHalfEven q ∧ roundHalfEven q ≤ ⌊q⌋ + 1 := by
  unfold roundHalfEven
  split_ifs <;> omega

/-- roundHalfEven is monotone. -/
lemma roundHalfEven_mono {x y : ℚ} (h : x ≤ y) : roundHalfEven x ≤ roundHalfEven y := by
  have hf : ⌊x⌋ ≤ ⌊y⌋ := Int.floor_le_floor h
  rcases lt_or_eq_of_le hf with hlt | heq
  · have hx := (roundHalfEven_bounds x).2
    have hy := (roundHalfEven_bounds y).1
    omega
  · unfold roundHalfEven
    rw [← heq]
    have hfr : x - (⌊x⌋ : ℚ) ≤ y - (⌊x⌋ : ℚ) := by linarith
    split_ifs <;> first | omega | linarith

/-- Rounding to two decimals is monotone, so it preserves the OHLC order
relations established before rounding. -/
lemma round2_mono {x y : ℚ} (h : x ≤ y) : round2 x ≤ round2 y := by
  unfold round2
  have h1 : roundHalfEven (x * 100) ≤ roundHalfEven (y * 100) :=
    roundHalfEven_mono (by linarith)
  have h2 : ((roundHalfEven (x * 100) : ℤ) : ℚ) ≤ ((roundHalfEven (y * 100) : ℤ) : ℚ) := by
    exact_mod_cast h1
  linarith

/-- roundHalfEven fixes the integers. -/
lemma roundHalfEven_intCast (z : ℤ) : roundHalfEven (z : ℚ) = z := by
  unfold roundHalfEven
  rw [Int.floor_intCast]
  norm_num

/-- round2 fixes the integers. -/
lemma round2_intCast (z : ℤ) : round2 (z : ℚ) = (z : ℚ) := by
  unfold round2
  have h : (z : ℚ) * 100 = ((z * 100 : ℤ) : ℚ) := by push_cast; ring
  rw [h, roundHalfEven_intCast]
  push_cast
  ring

/-- round2 maps the half-cent value 1/200 to 0 (round half to even). -/
lemma round2_half_cent : round2 (1/200) = 0 := by
  unfold round2 roundHalfEven
  have harg : (1/200 : ℚ) * 100 = 1/2 := by norm_num
  have hfloor : ⌊(1/2 : ℚ)⌋ = 0 := by
    rw [Int.floor_eq_iff]
    norm_num
  rw [harg, hfloor]
  norm_num

/-- A sequential send loop through send_bar absorbs every outcome: each
fault adds one error, each success adds one message, and no attempt is
skipped. -/
lemma runSends_counts (outs : List SendOutcome) (m : StressTestMetrics) :
    (runSends m outs).errors = m.errors + outs.countP isFault ∧
    (runSends m outs).messages_sent = m.messages_sent + outs.countP isOk := by
  induction outs generalizing m with
  | nil => simp [runSends]
  | cons o rest ih =>
    have hc : runSends m (o :: rest) = runSends ((send_bar m o).2) rest := rfl
    rw [hc]
    cases o with
    | ok lat =>
      refine ⟨?_, ?_⟩
      · rw [(ih _).1]
        simp [send_bar, record_message, List.countP_cons, isFault]
      · rw [(ih _).2]
        simp [send_bar, record_message, List.countP_cons, isOk]
        try omega
    | fault =>
      refine ⟨?_, ?_⟩
      · rw [(ih _).1]
        simp [send_bar, record_error, List.countP_cons, isFault]
        try omega
      · rw [(ih _).2]
        simp [send_bar, record_error, List.countP_cons, isOk]

/-- One all-fault pass of the burst inner loop adds one error per symbol
and leaves the message counter, latency list, and start time unchanged. -/
lemma burst_inner_allfault (symbols : List String) (draws : Nat → Draws)
    (st : MarketDataGenerator × StressTestMetrics × Nat) :
    (burst_inner symbols (fun _ => SendOutcome.fault) draws st).2.1.errors
        = st.2.1.errors + symbols.length ∧
    (burst_inner symbols (fun _ => SendOutcome.fault) draws st).2.1.messages_sent
        = st.2.1.messages_sent ∧
    (burst_inner symbols (fun _ => SendOutcome.fault) draws st).2.1.latencies
        = st.2.1.latencies ∧
    (burst_inner symbols (fun _ => SendOutcome.fault) draws st).2.1.start_time
        = st.2.1.start_time := by
  induction symbols generalizing st with
  | nil => simp [burst_inner]
  | cons s rest ih =>
    have h := ih ((generate_bar st.1 s (draws st.2.2)).2,
      (send_bar st.2.1 (SendOutcome.fault)).2, st.2.2 + 1)
    simp only [burst_inner, List.foldl_cons] at h ⊢
    simp only [send_bar, record_error] at h ⊢
    refine ⟨?_, h.2.1, h.2.2.1, h.2.2.2⟩
    rw [h.1]
    simp
    omega

/-- Running the whole burst phase against an always-faulting sink yields
one error per attempted send and no recorded message or latency. -/
lemma burst_test_allfault (g0 : MarketDataGenerator) (symbols : List String)
    (mps : Nat) (draws : Nat → Draws) (t0 : ℚ) :
    (burst_test g0 symbols mps (fun _ => SendOutcome.fault) draws t0).2.1.errors
        = mps * symbols.length ∧
    (burst_test g0 symbols mps (fun _ => SendOutcome.fault) draws t0).2.1.messages_sent = 0 ∧
    (burst_test g0 symbols mps (fun _ => SendOutcome.fault) draws t0).2.1.latencies = [] ∧
    (burst_test g0 symbols mps (fun _ => SendOutcome.fault) draws t0).2.1.start_time = some t0 := by
  induction mps with
  | zero => simp [burst_test, initMetrics]
  | succ n ih =>
    have hrw : burst_test g0 symbols (n + 1) (fun _ => SendOutcome.fault) draws t0
        = burst_inner symbols (fun _ => SendOutcome.fault) draws
            (burst_test g0 symbols n (fun _ => SendOutcome.fault) draws t0) := by
      simp [burst_test, List.range_succ, List.foldl_append]
    have h := burst_inner_allfault symbols draws
      (burst_test g0 symbols n (fun _ => SendOutcome.fault) draws t0)
    rw [hrw]
    refine ⟨?_, ?_, ?_, ?_⟩
    · rw [h.1, ih.1]; ring
    · rw [h.2.1, ih.2.1]
    · rw [h.2.2.1, ih.2.2.1]
    · rw [h.2.2.2, ih.2.2.2]

/-- runPhases produces a document exactly when no phase raised. -/
lemma runPhases_isSome (phases : List PhaseOutcome) :
    (runPhases phases).isSome ↔ PhaseOutcome.exn ∉ phases := by
  induction phases with
  | nil => simp [runPhases]
  | cons p rest ih =>
    cases p with
    | ok s => simp [runPhases, ih]
    | exn => simp [runPhases]

/-- The latency samples 1, 2, ..., 100 of the spec's percentile test. -/
def latSamples100 : List ℚ := List.map (fun i : ℕ => (i : ℚ) + 1) (List.range 100)

/-- latSamples100 is sorted ascending. -/
lemma latSamples100_sorted : List.Sorted (· ≤ ·) latSamples100 := by
  have h1 : List.Sorted (· < ·) latSamples100 := by
    unfold latSamples100
    refine List.Pairwise.map _ (fun a b hab => ?_) (List.sorted_lt_range 100)
    have hq : (a : ℚ) < b := by exact_mod_cast hab
    linarith
  exact h1.le_of_lt

/-- Sorting any permutation of latSamples100 recovers latSamples100. -/
lemma sortedLat_eq_of_perm {l : List ℚ} (h : List.Perm l latSamples100) :
    sortedLat l = latSamples100 :=
  List.eq_of_perm_of_sorted ((List.perm_insertionSort _ l).trans h)
    (List.sorted_insertionSort _ l) latSamples100_sorted

/-- Length of latSamples100. -/
lemma latSamples100_length : latSamples100.length = 100 := by
  unfold latSamples100
  rw [List.length_map, List.length_range]

/-- Element k of latSamples100 is k + 1. -/
lemma latSamples100_getD (k : Nat) (h : k < 100) :
    latSamples100.getD k 0 = (k : ℚ) + 1 := by
  have hl : k < latSamples100.length := by rw [latSamples100_length]; exact h
  rw [List.getD_eq_getElem _ _ hl]
  unfold latSamples100
  rw [List.getElem_map, List.getElem_range]

/-- Concrete generator state used by concrete-input theorems. -/
def gen0 : MarketDataGenerator :=
  { symbols := ["A"], prices := fun _ => 100, volumes := fun _ => 1000000 }

/-- Neutral draw record: no price movement, no offsets. -/
def d0 : Draws :=
  { change_pct := 0, high_off := 0, low_off := 0, open_u := 0, vol_u := 1, now_ms := 0 }

/-- Concrete draw record whose rounded close differs from the exact close:
from price 100 it produces the half-cent close 1/200. -/
def dDiff : Draws :=
  { change_pct := -19999/20000, high_off := 0, low_off := 0, open_u := 0, vol_u := 1,
    now_ms := 0 }

/-- Concrete draw record violating the OHLC invariant: a Gaussian draw
below -1 makes the close negative, flipping the high/low inflation. -/
def dBad : Draws :=
  { change_pct := -2, high_off := 1/2, low_off := 1/2, open_u := 1/2, vol_u := 1, now_ms := 0 }

/-- Sink oracle that faults on the first attempt and succeeds afterwards. -/
def sink0 : Nat → SendOutcome :=
  fun i => if i = 0 then SendOutcome.fault else SendOutcome.ok 5

/-! Claim theorems. -/

/-- C1: the statistics snapshot is null/absent whenever no message and no
latency sample was recorded, even if errors were recorded, and a populated
result exists only when a sample exists.  In get_stats the null marker is
the empty latency_ms dict (modelled as none), which print_results treats as
absent; _analyze_latencies returns None itself. -/
theorem get_stats_null_iff_c1 (m : StressTestMetrics) (now : ℚ) (l : List ℚ) :
    (m.messages_sent = 0 ∧ m.latencies = [] → (get_stats m now).latency_ms = none) ∧
    ((get_stats m now).latency_ms.isSome = true → m.latencies ≠ []) ∧
    (l = [] → analyze_latencies l = none) ∧
    ((analyze_latencies l).isSome = true → l ≠ []) := by
  refine ⟨fun h => ?_, fun h => ?_, fun h => ?_, fun h => ?_⟩
  · simp [get_stats, h.2]
  · intro hl
    simp [get_stats, hl] at h
  · simp [analyze_latencies, h]
  · intro hl
    simp [analyze_latencies, hl] at h

/-- Witness for C1 at a concrete state with one recorded error. -/
theorem get_stats_null_iff_c1_witness :
    (get_stats { messages_sent := 0, errors := 1, latencies := [], start_time := none } 5).latency_ms
        = none ∧
    analyze_latencies ([] : List ℚ) = none := by
  have h := get_stats_null_iff_c1
    { messages_sent := 0, errors := 1, latencies := [], start_time := none } 5 []
  exact ⟨h.1 ⟨rfl, rfl⟩, h.2.2.1 rfl⟩

/-- C2 counterexample: record_message with the explicit latency 0.0
increments the counter but does not append the sample, because the source
guard is the Python truthiness test `if latency_ms:` and 0.0 is falsy; the
claim that the given latency (including 0.0) is appended is false here. -/
theorem record_message_zero_c2_counterexample :
    (record_message { messages_sent := 3, errors := 0, latencies := [], start_time := none }
        (some 0)).latencies ≠ [(0 : ℚ)] := by
  decide

/-- C2 amended: record_message always increments messages_sent by exactly
one and never fails (it is a total function); the given latency is appended
exactly when it is present and non-zero, and a latency of 0.0 or an absent
latency leaves the sample list unchanged. -/
theorem record_message_c2 (m : StressTestMetrics) (lat : ℚ) :
    (record_message m (some lat)).messages_sent = m.messages_sent + 1 ∧
    (record_message m none).messages_sent = m.messages_sent + 1 ∧
    (lat ≠ 0 → (record_message m (some lat)).latencies = m.latencies ++ [lat]) ∧
    (record_message m (some 0)).latencies = m.latencies ∧
    (record_message m none).latencies = m.latencies ∧
    (record_message m (some lat)).errors = m.errors ∧
    (record_message m (some lat)).start_time = m.start_time := by
  refine ⟨rfl, rfl, fun h => ?_, ?_, rfl, rfl, rfl⟩
  · simp [record_message, pyTruthy, h]
  · simp [record_message, pyTruthy]

/-- Witness for C2 at latency 7. -/
theorem record_message_c2_witness :
    (record_message initMetrics (some 7)).latencies = [(7 : ℚ)] := by
  have h := (record_message_c2 initMetrics 7).2.2.1 (by norm_num)
  simpa [initMetrics] using h

/-- C8 counterexample: with the truthy start time 1.0 (as every phase sets
via time.time()), get_stats recomputes duration from the wall clock, so
two calls on the unchanged metrics state at clock readings 2 and 3 differ
in duration_seconds: not bit-identical. -/
theorem get_stats_clock_c8_counterexample :
    get_stats { messages_sent := 1, errors := 0, latencies := [], start_time := some 1 } 2 ≠
      get_stats { messages_sent := 1, errors := 0, latencies := [], start_time := some 1 } 3 := by
  intro h
  have hd := congrArg Stats.duration_seconds h
  have e1 : (get_stats { messages_sent := 1, errors := 0, latencies := [], start_time := some 1 } 2).duration_seconds = (2 : ℚ) - 1 := rfl
  have e2 : (get_stats { messages_sent := 1, errors := 0, latencies := [], start_time := some 1 } 3).duration_seconds = (3 : ℚ) - 1 := rfl
  rw [e1, e2] at hd
  norm_num at hd

/-- C8 amended: get_stats is a pure function of the metrics state and the
clock reading; without intervening mutation, two calls agree on
messages_sent, errors, error_rate and the whole latency section.  The
duration and throughput fields are recomputed from time.time() at each
call, so the full results are bit-identical when the two clock readings
coincide, and also whenever the stored start time is falsy (None or 0.0,
where the source line 44 forces duration 0); at a truthy start time and
distinct readings they can differ, as the counterexample shows. -/
theorem get_stats_pure_c8 (m : StressTestMetrics) (t₁ t₂ : ℚ) :
    (get_stats m t₁).messages_sent = (get_stats m t₂).messages_sent ∧
    (get_stats m t₁).errors = (get_stats m t₂).errors ∧
    (get_stats m t₁).error_rate = (get_stats m t₂).error_rate ∧
    (get_stats m t₁).latency_ms = (get_stats m t₂).latency_ms ∧
    (t₁ = t₂ → get_stats m t₁ = get_stats m t₂) ∧
    (pyTruthy m.start_time = false → get_stats m t₁ = get_stats m t₂) := by
  refine ⟨rfl, rfl, rfl, rfl, fun h => by rw [h], fun h => ?_⟩
  simp [get_stats, h]

/-- Witness for C8: on a fresh metrics state (no start time set) two calls
at the distinct clock readings 3 and 5 return the same dict. -/
theorem get_stats_pure_c8_witness :
    get_stats initMetrics 3 = get_stats initMetrics 5 := by
  exact (get_stats_pure_c8 initMetrics 3 5).2.2.2.2.2 rfl

/-- C9 counterexample: a phase exception in run_all_tests propagates (there
is no try/except around the phases), so no results document is produced,
while the claimed behavior records a null entry and still writes the
document. -/
theorem run_all_tests_c9_counterexample :
    run_all_tests true [PhaseOutcome.exn] = none ∧
    run_all_tests_claimed true [PhaseOutcome.exn] = some [none] := by
  exact ⟨rfl, rfl⟩

/-- C9 amended: the suite entry point aborts on a failed connection, and a
document is produced exactly when every phase returns without raising; an
exception escaping any phase aborts the remaining phases and the write. -/
theorem run_all_tests_c9 (phases : List PhaseOutcome) :
    run_all_tests false phases = none ∧
    ((run_all_tests true phases).isSome ↔ PhaseOutcome.exn ∉ phases) := by
  exact ⟨rfl, runPhases_isSome phases⟩

/-- Witness for C9 on the empty phase list. -/
theorem run_all_tests_c9_witness :
    (run_all_tests true []).isSome = true := by
  exact (run_all_tests_c9 []).2.mpr (by simp)

/-- C10: generate_bar updates exactly the requested symbol's stored price,
storing the un-rounded close, leaves every other symbol's price, all
baseline volumes and the symbol list unchanged, returns the rounded close
in the bar, and there is an input on which the rounded close differs from
the stored one. -/
theorem generate_bar_frame_c10 (g : MarketDataGenerator) (symbol : String) (d : Draws) :
    (∀ s, s ≠ symbol → ((generate_bar g symbol d).2).prices s = g.prices s) ∧
    ((generate_bar g symbol d).2).volumes = g.volumes ∧
    ((generate_bar g symbol d).2).symbols = g.symbols ∧
    ((generate_bar g symbol d).2).prices symbol = g.prices symbol * (1 + d.change_pct) ∧
    ((generate_bar g symbol d).1).close = round2 (g.prices symbol * (1 + d.change_pct)) ∧
    (∃ (g₀ : MarketDataGenerator) (s₀ : String) (d₀ : Draws),
      ((generate_bar g₀ s₀ d₀).1).close ≠ ((generate_bar g₀ s₀ d₀).2).prices s₀) := by
  refine ⟨fun s hs => ?_, rfl, rfl, ?_, rfl, ⟨gen0, "A", dDiff, ?_⟩⟩
  · simp [generate_bar, hs]
  · simp [generate_bar]
  · have hval : gen0.prices "A" * (1 + dDiff.change_pct) = 1/200 := by
      norm_num [gen0, dDiff]
    have e1 : ((generate_bar gen0 "A" dDiff).1).close
        = round2 (gen0.prices "A" * (1 + dDiff.change_pct)) := rfl
    have e2 : ((generate_bar gen0 "A" dDiff).2).prices "A"
        = gen0.prices "A" * (1 + dDiff.change_pct) := by
      simp [generate_bar]
    rw [e1, e2, hval, round2_half_cent]
    norm_num

/-- Witness for C10: the price of another symbol is untouched. -/
theorem generate_bar_frame_c10_witness :
    ((generate_bar gen0 "A" d0).2).prices "B" = gen0.prices "B" := by
  exact (generate_bar_frame_c10 gen0 "A" d0).1 "B" (by decide)

/-- C3: for every nonempty latency list the p95/p99 indices int(n*0.95)
and int(n*0.99) are already within [0, n-1], so clamping to n-1 is the
identity and both statistics routines read the clamped in-range position of
the ascending-sorted list: no out-of-range access can occur. -/
theorem percentile_bounds_c3 (l : List ℚ) (h : l ≠ []) :
    l.length * 95 / 100 ≤ l.length - 1 ∧
    l.length * 99 / 100 ≤ l.length - 1 ∧
    (latencyStatsOf l).p95 = (sortedLat l).getD (min (l.length * 95 / 100) (l.length - 1)) 0 ∧
    (latencyStatsOf l).p99 = (sortedLat l).getD (min (l.length * 99 / 100) (l.length - 1)) 0 ∧
    (analyze_latencies l).map AnalyzeStats.p95
        = some ((sortedLat l).getD (min (l.length * 95 / 100) (l.length - 1)) 0) ∧
    (analyze_latencies l).map AnalyzeStats.p99
        = some ((sortedLat l).getD (min (l.length * 99 / 100) (l.length - 1)) 0) := by
  have hn : 1 ≤ l.length := List.length_pos.mpr h
  have h95 : l.length * 95 / 100 ≤ l.length - 1 := by omega
  have h99 : l.length * 99 / 100 ≤ l.length - 1 := by omega
  have hmin95 : min (l.length * 95 / 100) (l.length - 1) = l.length * 95 / 100 := by omega
  have hmin99 : min (l.length * 99 / 100) (l.length - 1) = l.length * 99 / 100 := by omega
  have hlen : (sortedLat l).length = l.length := List.length_insertionSort _ l
  refine ⟨h95, h99, ?_, ?_, ?_, ?_⟩
  · simp [latencyStatsOf, hlen, hmin95]
  · simp [latencyStatsOf, hlen, hmin99]
  · simp [analyze_latencies, h, hmin95]
  · simp [analyze_latencies, h, hmin99]

/-- Witness for C3 on the two-element list. -/
theorem percentile_bounds_c3_witness :
    [(1 : ℚ), 2].length * 99 / 100 ≤ [(1 : ℚ), 2].length - 1 ∧
    (latencyStatsOf [(1 : ℚ), 2]).p99
        = (sortedLat [(1 : ℚ), 2]).getD
            (min ([(1 : ℚ), 2].length * 99 / 100) ([(1 : ℚ), 2].length - 1)) 0 := by
  have h := percentile_bounds_c3 [(1 : ℚ), 2] (by simp)
  exact ⟨h.2.1, h.2.2.2.1⟩

/-- C4 amended: the OHLC invariant low ≤ open ≤ high and low ≤ close ≤ high
holds for every draw whose Gaussian percentage change is at least -1 and
every nonnegative stored last close (as established at initialization),
because the computed close is then nonnegative and rounding is monotone;
an (astronomically unlikely but possible) Gaussian draw below -1 makes the
close negative and flips the high/low construction, breaking the
invariant, so the unrestricted claim is false. -/
theorem bar_invariant_c4 (g : MarketDataGenerator) (symbol : String) (d : Draws)
    (hprice : 0 ≤ g.prices symbol) (hchg : -1 ≤ d.change_pct)
    (hu0 : 0 ≤ d.open_u) (hu1 : d.open_u ≤ 1) :
    ((generate_bar g symbol d).1).low ≤ ((generate_bar g symbol d).1).open_price ∧
    ((generate_bar g symbol d).1).open_price ≤ ((generate_bar g symbol d).1).high ∧
    ((generate_bar g symbol d).1).low ≤ ((generate_bar g symbol d).1).close ∧
    ((generate_bar g symbol d).1).close ≤ ((generate_bar g symbol d).1).high := by
  have key : ∀ p a b u : ℚ, 0 ≤ p → 0 ≤ a → 0 ≤ b → 0 ≤ u → u ≤ 1 →
      p * (1 - b) ≤ p * (1 - b) + (p * (1 + a) - p * (1 - b)) * u ∧
      p * (1 - b) + (p * (1 + a) - p * (1 - b)) * u ≤ p * (1 + a) ∧
      p * (1 - b) ≤ p ∧ p ≤ p * (1 + a) := by
    intro p a b u hp ha hb hv0 hv1
    have h1 : p * (1 - b) ≤ p := by nlinarith
    have h2 : p ≤ p * (1 + a) := by nlinarith
    have h3 : 0 ≤ (p * (1 + a) - p * (1 - b)) * u := mul_nonneg (by linarith) hv0
    have h4 : 0 ≤ (p * (1 + a) - p * (1 - b)) * (1 - u) :=
      mul_nonneg (by linarith) (by linarith)
    have h5 : (p * (1 + a) - p * (1 - b)) * (1 - u)
        = (p * (1 + a) - p * (1 - b)) - (p * (1 + a) - p * (1 - b)) * u := by ring
    refine ⟨by linarith, ?_, h1, h2⟩
    rw [h5] at h4
    linarith
  have hclose : 0 ≤ g.prices symbol * (1 + d.change_pct) :=
    mul_nonneg hprice (by linarith)
  have k := key (g.prices symbol * (1 + d.change_pct)) |d.high_off| |d.low_off| d.open_u
    hclose (abs_nonneg _) (abs_nonneg _) hu0 hu1
  exact ⟨round2_mono k.1, round2_mono k.2.1, round2_mono k.2.2.1, round2_mono k.2.2.2⟩

/-- Witness for C4 on a neutral draw from price 100. -/
theorem bar_invariant_c4_witness :
    ((generate_bar gen0 "A" d0).1).low ≤ ((generate_bar gen0 "A" d0).1).open_price ∧
    ((generate_bar gen0 "A" d0).1).open_price ≤ ((generate_bar gen0 "A" d0).1).high ∧
    ((generate_bar gen0 "A" d0).1).low ≤ ((generate_bar gen0 "A" d0).1).close ∧
    ((generate_bar gen0 "A" d0).1).close ≤ ((generate_bar gen0 "A" d0).1).high := by
  refine bar_invariant_c4 gen0 "A" d0 ?_ ?_ ?_ ?_
  · norm_num [gen0]
  · norm_num [d0]
  · norm_num [d0]
  · norm_num [d0]

/-- C4 counterexample: with stored price 100, a Gaussian change draw of -2,
half-normal offsets 1/2 and the uniform draw 1/2 for the open, the bar has
low = -50 and open = -100, violating low ≤ open: the claimed invariant
fails for some possible draws of the unbounded Gaussian. -/
theorem bar_invariant_c4_counterexample :
    ¬ (((generate_bar gen0 "A" dBad).1).low ≤ ((generate_bar gen0 "A" dBad).1).open_price ∧
       ((generate_bar gen0 "A" dBad).1).open_price ≤ ((generate_bar gen0 "A" dBad).1).high ∧
       ((generate_bar gen0 "A" dBad).1).low ≤ ((generate_bar gen0 "A" dBad).1).close ∧
       ((generate_bar gen0 "A" dBad).1).close ≤ ((generate_bar gen0 "A" dBad).1).high) := by
  intro hcon
  have habs : |(1/2 : ℚ)| = 1/2 := by
    rw [abs_of_pos]
    norm_num
  have hlow : ((generate_bar gen0 "A" dBad).1).low = -50 := by
    have e : ((generate_bar gen0 "A" dBad).1).low
        = round2 (gen0.prices "A" * (1 + dBad.change_pct) * (1 - |dBad.low_off|)) := rfl
    have hv : gen0.prices "A" * (1 + dBad.change_pct) * (1 - |dBad.low_off|)
        = ((-50 : ℤ) : ℚ) := by
      norm_num [gen0, dBad, habs]
    rw [e, hv, round2_intCast]
    norm_num
  have hopen : ((generate_bar gen0 "A" dBad).1).open_price = -100 := by
    have e : ((generate_bar gen0 "A" dBad).1).open_price
        = round2 (gen0.prices "A" * (1 + dBad.change_pct) * (1 - |dBad.low_off|)
            + (gen0.prices "A" * (1 + dBad.change_pct) * (1 + |dBad.high_off|)
                - gen0.prices "A" * (1 + dBad.change_pct) * (1 - |dBad.low_off|))
              * dBad.open_u) := rfl
    have hv : gen0.prices "A" * (1 + dBad.change_pct) * (1 - |dBad.low_off|)
        + (gen0.prices "A" * (1 + dBad.change_pct) * (1 + |dBad.high_off|)
            - gen0.prices "A" * (1 + dBad.change_pct) * (1 - |dBad.low_off|))
          * dBad.open_u
        = ((-100 : ℤ) : ℚ) := by
      norm_num [gen0, dBad, habs]
    rw [e, hv, round2_intCast]
    norm_num
  have h1 := hcon.1
  rw [hlow, hopen] at h1
  norm_num at h1

/-- C5 amended: in the sequential phases every send goes through send_bar,
where a fault is caught locally, increments the error counter by exactly
one and leaves the loop to continue (the sequential loop processes every
attempt, counting each fault and each success); in the concurrent phase's
worker, however, the try block wraps the whole loop, so the first fault
performs one record_error and aborts that worker's remaining sends. -/
theorem send_fault_isolation_c5 :
    (∀ m : StressTestMetrics,
      (send_bar m SendOutcome.fault).2.errors = m.errors + 1 ∧
      (send_bar m SendOutcome.fault).2.messages_sent = m.messages_sent ∧
      (send_bar m SendOutcome.fault).2.latencies = m.latencies) ∧
    (∀ (m : StressTestMetrics) (outs : List SendOutcome),
      (runSends m outs).errors = m.errors + outs.countP isFault ∧
      (runSends m outs).messages_sent = m.messages_sent + outs.countP isOk) ∧
    (∀ (symPick : Nat → String) (draws : Nat → Draws) (sink : Nat → SendOutcome)
        (k i : Nat) (gen : MarketDataGenerator) (m : StressTestMetrics),
      sink i = SendOutcome.fault →
      workerLoop symPick draws sink (k + 1) i gen m = record_error m) := by
  refine ⟨fun m => ⟨rfl, rfl, rfl⟩, fun m outs => runSends_counts outs m, ?_⟩
  intro sp dr sink k i gen m hf
  simp [workerLoop, hf]

/-- Witness for C5: a single-send worker facing a faulting sink ends with
one recorded error. -/
theorem send_fault_isolation_c5_witness :
    workerLoop (fun _ => "A") (fun _ => d0) (fun _ => SendOutcome.fault) 1 0 gen0 initMetrics
      = record_error initMetrics := by
  exact send_fault_isolation_c5.2.2 (fun _ => "A") (fun _ => d0) (fun _ => SendOutcome.fault)
    0 0 gen0 initMetrics rfl

/-- C5 counterexample: a worker whose first send faults and whose second
send would succeed does not match the claimed fault-isolated behavior: the
source worker aborts after the fault (0 messages recorded), while the
claimed behavior would record the second message. -/
theorem worker_abort_c5_counterexample :
    workerLoop (fun _ => "A") (fun _ => d0) sink0 2 0 gen0 initMetrics ≠
      workerLoopIsolated (fun _ => "A") (fun _ => d0) sink0 2 0 gen0 initMetrics := by
  intro h
  have hm := congrArg StressTestMetrics.messages_sent h
  have e1 : (workerLoop (fun _ => "A") (fun _ => d0) sink0 2 0 gen0 initMetrics).messages_sent
      = 0 := rfl
  have e2 : (workerLoopIsolated (fun _ => "A") (fun _ => d0) sink0 2 0 gen0
      initMetrics).messages_sent = 1 := rfl
  rw [e1, e2] at hm
  exact absurd hm (by norm_num)

/-- C6: a burst phase in which every send attempt faults ends with
errors = totalAttempts, messagesSent = 0 (messages are counted only on
success), and a null statistics section: with zero latency samples the
latency_ms entry of get_stats is the absent/empty marker. -/
theorem burst_allfail_c6 (g : MarketDataGenerator) (symbols : List String)
    (mps : Nat) (draws : Nat → Draws) (t0 now : ℚ) :
    (burst_test g symbols mps (fun _ => SendOutcome.fault) draws t0).2.1.errors
        = mps * symbols.length ∧
    (burst_test g symbols mps (fun _ => SendOutcome.fault) draws t0).2.1.messages_sent = 0 ∧
    (get_stats (burst_test g symbols mps (fun _ => SendOutcome.fault) draws t0).2.1
        now).latency_ms = none := by
  have h := burst_test_allfault g symbols mps draws t0
  exact ⟨h.1, h.2.1, by simp [get_stats, h.2.2.1]⟩

/-- C7: on any insertion order of the samples 1..100, the derived
statistics satisfy the spec's interval checks: p50 = 51 ∈ [50,51],
p95 = 96 ∈ [95,96], p99 = 100 ∈ [99,100], and the statistics.median value
is exactly 50.5. -/
theorem percentiles_1_to_100_c7 (l : List ℚ) (h : List.Perm l latSamples100) :
    50 ≤ (latencyStatsOf l).p50 ∧ (latencyStatsOf l).p50 ≤ 51 ∧
    95 ≤ (latencyStatsOf l).p95 ∧ (latencyStatsOf l).p95 ≤ 96 ∧
    99 ≤ (latencyStatsOf l).p99 ∧ (latencyStatsOf l).p99 ≤ 100 ∧
    (analyze_latencies l).map AnalyzeStats.median = some (101/2) := by
  have hs : sortedLat l = latSamples100 := sortedLat_eq_of_perm h
  have hlen : l.length = 100 := by
    have hx := h.length_eq
    rwa [latSamples100_length] at hx
  have hnil : l ≠ [] := by
    intro hx
    rw [hx] at hlen
    simp at hlen
  have hp50 : (latencyStatsOf l).p50 = 51 := by
    have e : (latencyStatsOf l).p50 = (sortedLat l).getD ((sortedLat l).length / 2) 0 := rfl
    rw [e, hs, latSamples100_length]
    have hi : (100 / 2 : ℕ) = 50 := by norm_num
    rw [hi, latSamples100_getD 50 (by norm_num)]
    norm_num
  have hp95 : (latencyStatsOf l).p95 = 96 := by
    have e : (latencyStatsOf l).p95
        = (sortedLat l).getD ((sortedLat l).length * 95 / 100) 0 := rfl
    rw [e, hs, latSamples100_length]
    have hi : (100 * 95 / 100 : ℕ) = 95 := by norm_num
    rw [hi, latSamples100_getD 95 (by norm_num)]
    norm_num
  have hp99 : (latencyStatsOf l).p99 = 100 := by
    have e : (latencyStatsOf l).p99
        = (sortedLat l).getD ((sortedLat l).length * 99 / 100) 0 := rfl
    rw [e, hs, latSamples100_length]
    have hi : (100 * 99 / 100 : ℕ) = 99 := by norm_num
    rw [hi, latSamples100_getD 99 (by norm_num)]
    norm_num
  have hmed : pyMedian l = 101/2 := by
    have e : pyMedian l
        = if (sortedLat l).length % 2 = 1 then (sortedLat l).getD ((sortedLat l).length / 2) 0
          else ((sortedLat l).getD ((sortedLat l).length / 2 - 1) 0
            + (sortedLat l).getD ((sortedLat l).length / 2) 0) / 2 := rfl
    rw [e, hs, latSamples100_length]
    norm_num
    have g49 : latSamples100[49]?.getD 0 = (49 : ℚ) + 1 := latSamples100_getD 49 (by norm_num)
    have g50 : latSamples100[50]?.getD 0 = (50 : ℚ) + 1 := latSamples100_getD 50 (by norm_num)
    rw [g49, g50]
    norm_num
  refine ⟨by rw [hp50]; norm_num, by rw [hp50], by rw [hp95]; norm_num, by rw [hp95],
    by rw [hp99]; norm_num, by rw [hp99], ?_⟩
  have ha : (analyze_latencies l).map AnalyzeStats.median = some (pyMedian l) := by
    simp [analyze_latencies, hnil]
  rw [ha, hmed]

/-- Witness for C7 on the already-sorted sample list. -/
theorem percentiles_1_to_100_c7_witness :
    50 ≤ (latencyStatsOf latSamples100).p50 ∧
    (analyze_latencies latSamples100).map AnalyzeStats.median = some (101/2) := by
  have h := percentiles_1_to_100_c7 latSamples100 (List.Perm.refl _)
  exact ⟨h.1, h.2.2.2.2.2.2⟩

end HftPipeline
